import Mathlib

/-!
Shallow embedding of `src/script.js` (a browser weather app driven by the
Open-Meteo HTTP API) and proofs of the specification claims about it.

Modelling conventions:
* JS numbers that carry fractional data are modelled as `ℚ`; `Math.round`
  (round half toward positive infinity) is Mathlib's `round`.
* A JS value read out of a JSON array can be a number, the JSON literal
  `null`, or `undefined` (out-of-range index); `JNum` covers the three.
* Network `fetch` results are passed in as explicit response values:
  `none` models a transport failure (the promise rejecting), `some r`
  a settled HTTP response with its parsed JSON body; exceptions become
  `Except String` with the thrown `Error` message.
* DOM element state (`textContent`, `style.display`, `classList`) is an
  explicit `UIState` record threaded through the functions that mutate it.
* The JS engine's number-to-string conversion is modelled by `natToString`
  and `intToString` below (used only on integer-valued numbers, which is
  how the source uses it).
-/

namespace WeatherApp

/-- A JavaScript numeric-position value as it flows through this app:
an actual number, the JSON literal `null`, or `undefined`. -/
inductive JNum where
  | num (q : ℚ)
  | null
  | undef
deriving DecidableEq, Repr

/-- Decimal digit character, used to model the JS engine's rendering of
integer-valued numbers into strings. -/
def digitChar (n : Nat) : Char :=
  if n = 0 then '0' else if n = 1 then '1' else if n = 2 then '2'
  else if n = 3 then '3' else if n = 4 then '4' else if n = 5 then '5'
  else if n = 6 then '6' else if n = 7 then '7' else if n = 8 then '8'
  else '9'

/-- Digit list of `n`, most significant first; structural recursion on a
fuel argument so that concrete evaluation reduces in the kernel. -/
def natDigitsAux : Nat → Nat → List Char
  | 0, _ => []
  | fuel + 1, n =>
    if n = 0 then [] else natDigitsAux fuel (n / 10) ++ [digitChar (n % 10)]

/-- Model of JS `String(n)` for a nonnegative integer-valued number. -/
def natToString (n : Nat) : String :=
  if n = 0 then "0" else String.mk (natDigitsAux n n)

/-- Model of JS `String(i)` for an integer-valued number. -/
def intToString (i : Int) : String :=
  if i < 0 then "-" ++ natToString i.natAbs else natToString i.natAbs

/-- Model of JS `x.toFixed(1)`: one digit after the decimal point, ties
rounded toward positive infinity (ECMA-262 picks the larger candidate). -/
def toFixed1 (q : ℚ) : String :=
  let n : Int := round (10 * q)
  let a : Nat := n.natAbs
  (if n < 0 then "-" else "") ++ natToString (a / 10) ++ "." ++ natToString (a % 10)

/-- The fixed weather-code table of `getWeatherCondition`
(`src/script.js` lines 354-383), as the association list underlying the
JS object literal. -/
def weatherCodes : List (Int × String) :=
  [(0, "Clear sky"), (1, "Mainly clear"), (2, "Partly cloudy"), (3, "Overcast"),
   (45, "Foggy"), (48, "Depositing rime fog"),
   (51, "Light drizzle"), (53, "Moderate drizzle"), (55, "Dense drizzle"),
   (56, "Light freezing drizzle"), (57, "Dense freezing drizzle"),
   (61, "Slight rain"), (63, "Moderate rain"), (65, "Heavy rain"),
   (66, "Light freezing rain"), (67, "Heavy freezing rain"),
   (71, "Slight snow fall"), (73, "Moderate snow fall"), (75, "Heavy snow fall"),
   (77, "Snow grains"),
   (80, "Slight rain showers"), (81, "Moderate rain showers"), (82, "Violent rain showers"),
   (85, "Slight snow showers"), (86, "Heavy snow showers"),
   (95, "Thunderstorm"), (96, "Thunderstorm with slight hail"),
   (99, "Thunderstorm with heavy hail")]

/-- `getWeatherCondition` (`src/script.js` lines 353-386):
`weatherCodes[code] || 'Unknown'`.  Every label in the table is a
non-empty (hence truthy) string, so `||` fires exactly on a missing key. -/
def getWeatherCondition (code : Int) : String :=
  (weatherCodes.lookup code).getD "Unknown"

/-! Date handling for the historical request (`src/script.js` lines 293-298).
`new Date()` is an epoch-milliseconds timestamp; `toISOString().split('T')[0]`
is the UTC calendar date of that timestamp (the page is modelled with the
local timezone equal to UTC, so `setDate(getDate() - 7)` shifts the
timestamp by exactly seven days' worth of milliseconds). -/

def msPerDay : Int := 86400000

/-- UTC day index (days since 1970-01-01) of an epoch-ms timestamp.
Lean's `Int` division is Euclidean, which is floor division for a
positive divisor, matching the calendar computation. -/
def utcDay (ms : Int) : Int := ms / msPerDay

/-- Proleptic-Gregorian civil date `(year, month, day)` of a day index
(days since 1970-01-01); standard era-based conversion. -/
def civilFromDays (z0 : Int) : Int × Nat × Nat :=
  let z := z0 + 719468
  let era : Int := z / 146097
  let doe : Int := z - era * 146097
  let yoe : Int := (doe - doe / 1460 + doe / 36524 - doe / 146096) / 365
  let y : Int := yoe + era * 400
  let doy : Int := doe - (365 * yoe + yoe / 4 - yoe / 100)
  let mp : Int := (5 * doy + 2) / 153
  let d : Int := doy - (153 * mp + 2) / 5 + 1
  let m : Int := if mp < 10 then mp + 3 else mp - 9
  (if m ≤ 2 then y + 1 else y, m.toNat, d.toNat)

/-- Zero-padded two-digit field of an ISO date. -/
def pad2 (n : Nat) : String :=
  if n < 10 then "0" ++ natToString n else natToString n

/-- Zero-padded four-digit year field of an ISO date (years in 0..9999,
which covers every date this app can request). -/
def pad4 (y : Int) : String :=
  let a := y.natAbs
  (if y < 0 then "-" else "") ++
    (if a < 10 then "000" else if a < 100 then "00" else if a < 1000 then "0" else "") ++
    natToString a

/-- ISO `YYYY-MM-DD` rendering of a day index: the model of
`date.toISOString().split('T')[0]`. -/
def isoDateString (day : Int) : String :=
  let c := civilFromDays day
  pad4 c.1 ++ "-" ++ pad2 c.2.1 ++ "-" ++ pad2 c.2.2

/-! The geocoder client (`src/script.js` lines 232-259). -/

/-- One element of the geocoding response's `results` array; `admin1` is
an optional field (`none` models it being absent or `undefined`). -/
structure GeoResult where
  latitude : ℚ
  longitude : ℚ
  name : String
  country : String
  admin1 : Option String
deriving DecidableEq, Repr

/-- A settled geocoding HTTP response: `ok` is `response.ok`, `results`
the (possibly missing) `results` array of the parsed JSON body. -/
structure GeoResponse where
  ok : Bool
  results : Option (List GeoResult)
deriving DecidableEq, Repr

/-- The coordinates object `geocodeCity` resolves to. -/
structure Location where
  latitude : ℚ
  longitude : ℚ
  name : String
  country : String
  admin1 : String
deriving DecidableEq, Repr

/-- `geocodeCity` (`src/script.js` lines 232-259).  The argument is the
`fetch` outcome (`none` = transport failure).  The inner
`throw new Error('Geocoding API request failed')` on `!response.ok` is
caught by the function's own `catch`, which rethrows the connection
message, so both failure modes surface the same `Error`.  A missing or
empty `results` array returns `null` (here `.ok none`); otherwise the
first result is taken, with `admin1 || ''` defaulting to the empty
string. -/
def geocodeCity (resp : Option GeoResponse) : Except String (Option Location) :=
  match resp with
  | none => .error "Failed to find location. Please check your internet connection."
  | some r =>
    if !r.ok then
      .error "Failed to find location. Please check your internet connection."
    else
      match r.results with
      | none => .ok none
      | some [] => .ok none
      | some (first :: _) =>
        .ok (some { latitude := first.latitude, longitude := first.longitude,
                    name := first.name, country := first.country,
                    admin1 := first.admin1.getD "" })

/-! The three weather fetchers (`src/script.js` lines 267-346). -/

/-- The `current` block of the forecast response
(`temperature_2m, relative_humidity_2m, weather_code`); the API reports
relative humidity as an integer percentage. -/
structure CurrentData where
  temperature_2m : ℚ
  relative_humidity_2m : Int
  weather_code : Int
deriving DecidableEq, Repr

/-- A settled current-forecast HTTP response. -/
structure CurrentResponse where
  ok : Bool
  current : CurrentData
deriving DecidableEq, Repr

/-- `fetchCurrentWeather` (`src/script.js` lines 267-282): on transport
failure or `!response.ok` the thrown error is normalized by the `catch`
to the user-facing message; on success `data.current` is returned. -/
def fetchCurrentWeather (resp : Option CurrentResponse) : Except String CurrentData :=
  match resp with
  | none => .error "Failed to fetch current weather data."
  | some r =>
    if r.ok then .ok r.current else .error "Failed to fetch current weather data."

/-- The `daily` block of the historical response: parallel arrays keyed
by index. -/
structure DailyData where
  time : List String
  temperature_2m_max : List ℚ
  temperature_2m_min : List ℚ
  weather_code : List Int
deriving DecidableEq, Repr

/-- A settled historical-forecast HTTP response; `daily` may be missing
from the body (`displayHistoricalWeather` guards against that). -/
structure HistResponse where
  ok : Bool
  daily : Option DailyData
deriving DecidableEq, Repr

/-- The `start_date`/`end_date` query parameters of the historical
request URL (`src/script.js` line 300). -/
structure HistRequest where
  start_date : String
  end_date : String
deriving DecidableEq, Repr

/-- The date window of `fetchHistoricalWeather` (`src/script.js` lines
293-298): `endDate = new Date()` (the call-time timestamp `nowMs`),
`startDate.setDate(startDate.getDate() - 7)` (shifts the timestamp by
exactly seven days' worth of milliseconds), and
`toISOString().split('T')[0]` of each. -/
def historicalRequest (nowMs : Int) : HistRequest :=
  { start_date := isoDateString (utcDay (nowMs - 7 * msPerDay)),
    end_date := isoDateString (utcDay nowMs) }

/-- `fetchHistoricalWeather` (`src/script.js` lines 290-313): builds the
date window fresh from the call-time clock `nowMs`, then fetches; on
transport failure or `!response.ok` the `catch` normalizes the error to
the user-facing message; on success `data.daily` is returned.  The first
component records the request that was issued. -/
def fetchHistoricalWeather (nowMs : Int) (resp : Option HistResponse) :
    HistRequest × Except String (Option DailyData) :=
  (historicalRequest nowMs,
    match resp with
    | none => .error "Failed to fetch historical weather data."
    | some r =>
      if r.ok then .ok r.daily else .error "Failed to fetch historical weather data.")

/-- The `hourly` block of the marine response: parallel arrays whose
elements are numbers or JSON `null` (open-meteo reports `null` samples
for coordinates without marine data). -/
structure MarineHourly where
  wave_height : List (Option ℚ)
  sea_surface_temperature : List (Option ℚ)
deriving DecidableEq, Repr

/-- A settled marine-forecast HTTP response; `hourly` may be missing. -/
structure MarineResponse where
  ok : Bool
  hourly : Option MarineHourly
deriving DecidableEq, Repr

/-- The object `fetchMarineWeather` resolves to.  `waveHeight` is an
in-range array element (number or `null`, never `undefined`);
`seaTemperature` is read at the *wave-height* array's last index, so it
is `undefined` (`JNum.undef`) when `sea_surface_temperature` is
shorter. -/
structure MarineData where
  waveHeight : Option ℚ
  seaTemperature : JNum
deriving DecidableEq, Repr

/-- JS array indexing `l[i]`: the element (a number or JSON `null`)
when `i` is in range, `undefined` otherwise. -/
def jsGet (l : List (Option ℚ)) (i : Nat) : JNum :=
  match l.get? i with
  | none => .undef
  | some none => .null
  | some (some q) => .num q

/-- `fetchMarineWeather` (`src/script.js` lines 321-346).  Never throws:
transport failure and `!response.ok` return `null`; a missing `hourly`,
missing `wave_height` (collapsed here into the empty list), or empty
`wave_height` array falls through to `return null`; otherwise the entry
at `index = wave_height.length - 1` of each hourly array is returned.
The `getD` default on `waveHeight` is never consulted because `index`
is in range. -/
def fetchMarineWeather (resp : Option MarineResponse) : Option MarineData :=
  match resp with
  | none => none
  | some r =>
    if !r.ok then none
    else
      match r.hourly with
      | none => none
      | some h =>
        if h.wave_height.length > 0 then
          let index := h.wave_height.length - 1
          some { waveHeight := h.wave_height.getD index none,
                 seaTemperature := jsGet h.sea_surface_temperature index }
        else none

/-! The presentation layer (`src/script.js` lines 393-484) and the
interaction controller (`src/script.js` lines 59-209). -/

/-- One rendered day of the historical panel (`src/script.js` lines
425-431); `minTemp` is computed by the source but never rendered, so it
is not part of the panel content. -/
structure DayRow where
  dateLabel : String
  maxTemp : Int
  condition : String
deriving DecidableEq, Repr

/-- Content of `historicalContent`'s `innerHTML`: either the empty-state
markup with its message, or the appended day rows. -/
inductive HistContent where
  | emptyMsg (msg : String)
  | days (rows : List DayRow)
deriving DecidableEq, Repr

/-- The DOM state the script mutates: visibility of the error banner,
loading indicator, the three inline search boxes, the three cards'
`active` class markers and the marine empty state; the `activeCard`
variable; and the text content of the rendered panels. -/
structure UIState where
  errorVisible : Bool
  errorText : String
  loadingVisible : Bool
  currentSearchVisible : Bool
  currentActive : Bool
  historicalSearchVisible : Bool
  historicalActive : Bool
  marineSearchVisible : Bool
  marineActive : Bool
  marineEmptyVisible : Bool
  activeCard : Option String
  temperatureText : String
  weatherConditionText : String
  humidityText : String
  locationText : String
  histContent : HistContent
  waveHeightText : String
  seaTemperatureText : String
deriving DecidableEq, Repr

/-- `showLoading` (`src/script.js` lines 459-461). -/
def showLoading (st : UIState) : UIState := { st with loadingVisible := true }

/-- `hideLoading` (`src/script.js` lines 466-468). -/
def hideLoading (st : UIState) : UIState := { st with loadingVisible := false }

/-- `showError` (`src/script.js` lines 474-477). -/
def showError (message : String) (st : UIState) : UIState :=
  { st with errorText := message, errorVisible := true }

/-- `hideError` (`src/script.js` lines 482-484). -/
def hideError (st : UIState) : UIState := { st with errorVisible := false }

/-- `toggleCardSearch` (`src/script.js` lines 131-159): hides all three
search boxes, strips the `active` class from all three cards, then shows
and activates the requested one (the trailing `else` of the source's
if-chain leaves `activeCard` untouched for an unrecognized card type;
`input.focus()` has no modelled effect). -/
def toggleCardSearch (cardType : String) (st : UIState) : UIState :=
  let st := { st with
    currentSearchVisible := false, historicalSearchVisible := false,
    marineSearchVisible := false,
    currentActive := false, historicalActive := false, marineActive := false }
  if cardType = "current" then
    { st with currentSearchVisible := true, currentActive := true,
              activeCard := some "current" }
  else if cardType = "historical" then
    { st with historicalSearchVisible := true, historicalActive := true,
              activeCard := some "historical" }
  else if cardType = "marine" then
    { st with marineSearchVisible := true, marineActive := true,
              activeCard := some "marine" }
  else st

/-- `displayCurrentWeather` (`src/script.js` lines 393-402):
`Math.round` of the temperature, the raw humidity with a `%` suffix,
the code translated through `getWeatherCondition`, and the location as
`name, admin1, country` when `admin1` is truthy (a non-empty string)
else `name, country`. -/
def displayCurrentWeather (data : CurrentData) (location : Location)
    (st : UIState) : UIState :=
  { st with
    temperatureText := intToString (round data.temperature_2m),
    weatherConditionText := getWeatherCondition data.weather_code,
    humidityText := intToString data.relative_humidity_2m ++ "%",
    locationText :=
      if location.admin1 ≠ "" then
        location.name ++ ", " ++ location.admin1 ++ ", " ++ location.country
      else
        location.name ++ ", " ++ location.country }

/-- Month names of `toLocaleDateString('en-US', ...)` with the short
month option. -/
def monthName (m : Nat) : String :=
  if m = 1 then "Jan" else if m = 2 then "Feb" else if m = 3 then "Mar"
  else if m = 4 then "Apr" else if m = 5 then "May" else if m = 6 then "Jun"
  else if m = 7 then "Jul" else if m = 8 then "Aug" else if m = 9 then "Sep"
  else if m = 10 then "Oct" else if m = 11 then "Nov" else if m = 12 then "Dec"
  else "Invalid Date"

/-- Model of `new Date(s).toLocaleDateString('en-US', ...)` with the
short-month and numeric-day options, on the API's `YYYY-MM-DD` daily
timestamps (local timezone equal to UTC, as elsewhere). -/
def shortMonthDay (s : String) : String :=
  match s.splitOn "-" with
  | [_, m, d] =>
    match m.toNat?, d.toNat? with
    | some mn, some dn => monthName mn ++ " " ++ natToString dn
    | _, _ => "Invalid Date"
  | _ => "Invalid Date"

/-- The day row built by one iteration of the loop in
`displayHistoricalWeather` (`src/script.js` lines 419-434).  Every index
used by the loop is below `time.length`, and the API returns parallel
equal-length arrays, so the `getD` defaults model the in-range reads. -/
def historicalRow (d : DailyData) (i : Nat) : DayRow :=
  { dateLabel := shortMonthDay (d.time.getD i ""),
    maxTemp := round (d.temperature_2m_max.getD i 0),
    condition := getWeatherCondition (d.weather_code.getD i 0) }

/-- `displayHistoricalWeather` (`src/script.js` lines 408-435).  `data`
is `none` when the response had no `daily` block (`!data`; a missing
`time` array is collapsed into the empty list).  The previous panel
content is discarded: the function assigns `innerHTML` before appending,
so the result depends only on `data`.  At most
`Math.min(7, time.length)` rows are appended, in input order. -/
def displayHistoricalWeather (data : Option DailyData) (_prev : HistContent) :
    HistContent :=
  match data with
  | none => .emptyMsg "No historical data available"
  | some d =>
    if d.time.length = 0 then .emptyMsg "No historical data available"
    else
      .days ((List.range (min 7 d.time.length)).map (historicalRow d))

/-- Rendering of the sea-temperature field (`src/script.js` lines
449-451): the `!== null` check passes for a number and for `undefined`;
`Math.round(undefined)` is `NaN`, which the template literal renders as
the string `NaN`. -/
def renderSeaTemp : JNum → String
  | .num q => intToString (round q) ++ "°C"
  | .null => "N/A"
  | .undef => "NaN°C"

/-- `displayMarineWeather` (`src/script.js` lines 441-454): each field
falls back to `N/A` exactly when its value is strictly `null`; the
`!data` early return never fires at the call site (the caller checked
`marineData`), so the argument is the data object itself. -/
def displayMarineWeather (data : MarineData) (st : UIState) : UIState :=
  { st with
    waveHeightText :=
      match data.waveHeight with
      | some q => toFixed1 q ++ " m"
      | none => "N/A",
    seaTemperatureText := renderSeaTemp data.seaTemperature,
    marineEmptyVisible := false }

/-- The network environment of one search: the settled outcome each
`fetch` would produce, plus the call-time clock read by
`fetchHistoricalWeather`. -/
structure Env where
  geocodeResp : Option GeoResponse
  currentResp : Option CurrentResponse
  histResp : Option HistResponse
  marineResp : Option MarineResponse
  nowMs : Int
deriving DecidableEq, Repr

/-- The `try` block of `fetchWeatherForCard` (`src/script.js` lines
170-202): `.error msg` models a thrown `Error`; in the source no DOM
mutation inside the `try` precedes any throw, so a throw leaves the
state as it was at entry. -/
def fetchWeatherForCardTry (cardType : String) (env : Env) (st : UIState) :
    Except String UIState :=
  match geocodeCity env.geocodeResp with
  | .error msg => .error msg
  | .ok none => .error "City not found. Please check the spelling and try again."
  | .ok (some coordinates) =>
    if cardType = "current" then
      match fetchCurrentWeather env.currentResp with
      | .error msg => .error msg
      | .ok currentData =>
        let st := displayCurrentWeather currentData coordinates st
        .ok { st with currentSearchVisible := false, currentActive := false }
    else if cardType = "historical" then
      match (fetchHistoricalWeather env.nowMs env.histResp).2 with
      | .error msg => .error msg
      | .ok historicalData =>
        let st := { st with histContent := displayHistoricalWeather historicalData st.histContent }
        .ok { st with historicalSearchVisible := false, historicalActive := false }
    else if cardType = "marine" then
      let marineData := fetchMarineWeather env.marineResp
      let st :=
        match marineData with
        | some d =>
          if d.waveHeight.isSome then
            { displayMarineWeather d st with marineEmptyVisible := false }
          else
            { showError "Marine weather data not available for this location. Please try a coastal city." st
              with marineEmptyVisible := true }
        | none =>
          { showError "Marine weather data not available for this location. Please try a coastal city." st
            with marineEmptyVisible := true }
      .ok { st with marineSearchVisible := false, marineActive := false }
    else .ok st

/-- `fetchWeatherForCard` (`src/script.js` lines 166-209): hide the
error banner, show the loading indicator, run the `try` block; `catch`
shows the thrown error's message (every message thrown in this script is
non-empty, so the `|| 'Failed to fetch weather data. Please try again.'`
fallback never fires); `finally` hides the loading indicator. -/
def fetchWeatherForCard (cardType : String) (env : Env) (st0 : UIState) : UIState :=
  let st := showLoading (hideError st0)
  let st :=
    match fetchWeatherForCardTry cardType env st with
    | .ok st1 => st1
    | .error msg => showError msg st
  hideLoading st

/-- Model of JS `String.prototype.trim`: strip leading and trailing
whitespace. -/
def jsTrim (s : String) : String :=
  String.mk (((s.data.dropWhile Char.isWhitespace).reverse.dropWhile
    Char.isWhitespace).reverse)

/-- A search-button click handler from `setupCardInteractions`
(`src/script.js` lines 66-71, 88-93, 110-115): `inputValue` is the
current text of the card's input box; a falsy (empty) trimmed value
does nothing at all. -/
def handleCardSearchClick (cardType : String) (inputValue : String)
    (env : Env) (st : UIState) : UIState :=
  let cityName := jsTrim inputValue
  if cityName ≠ "" then fetchWeatherForCard cardType env st else st

/-- A card input's `keypress` handler (`src/script.js` lines 73-80,
95-102, 117-124): only the `Enter` key submits, with the same empty
check as the click handler. -/
def handleCardSearchKeypress (cardType : String) (key : String)
    (inputValue : String) (env : Env) (st : UIState) : UIState :=
  if key = "Enter" then handleCardSearchClick cardType inputValue env st else st

/-- JSON array element as a `JNum` (a number or `null`); the shape of an
in-range read. -/
def jnumOfElem : Option ℚ → JNum
  | some q => .num q
  | none => .null

/-! Helper lemmas about the string renderings. -/

theorem digitChar_ne (k : Nat) : digitChar k ≠ 'N' := by
  unfold digitChar; split_ifs <;> decide

theorem natDigitsAux_ne_nil (fuel n : Nat) (hf : fuel ≠ 0) (hn : n ≠ 0) :
    natDigitsAux fuel n ≠ [] := by
  cases fuel with
  | zero => exact absurd rfl hf
  | succ f => simp [natDigitsAux, hn]

theorem natDigitsAux_mem_ne (fuel : Nat) :
    ∀ (n : Nat), ∀ c ∈ natDigitsAux fuel n, c ≠ 'N' := by
  induction fuel with
  | zero => intro n c hc; simp [natDigitsAux] at hc
  | succ f ih =>
    intro n c hc
    by_cases hn : n = 0
    · simp [natDigitsAux, hn] at hc
    · simp only [natDigitsAux, hn, if_false, List.mem_append,
        List.mem_singleton] at hc
      rcases hc with h | h
      · exact ih _ c h
      · subst h; exact digitChar_ne _

theorem natToString_head (n : Nat) :
    ∃ c l, (natToString n).data = c :: l ∧ c ≠ 'N' := by
  by_cases hn : n = 0
  · exact ⟨'0', [], by simp [natToString, hn], by decide⟩
  · have hne := natDigitsAux_ne_nil n n hn hn
    rcases hl : natDigitsAux n n with _ | ⟨c, l⟩
    · exact absurd hl hne
    · refine ⟨c, l, by simp [natToString, hn, hl], ?_⟩
      exact natDigitsAux_mem_ne n n c (by rw [hl]; exact List.mem_cons_self c l)

theorem ne_NA_of_head (s : String) (c : Char) (l : List Char)
    (hs : s.data = c :: l) (hc : c ≠ 'N') : s ≠ "N/A" := by
  intro he
  rw [he] at hs
  have h2 : ('N' : Char) :: ['/', 'A'] = c :: l := hs
  exact hc (List.cons.injEq _ _ _ _ ▸ h2).1.symm

theorem head_of_append (s t : String) (c : Char) (l : List Char)
    (hs : s.data = c :: l) : (s ++ t).data = c :: (l ++ t.data) := by
  rw [String.data_append, hs]; rfl

theorem intToString_head (i : Int) :
    ∃ c l, (intToString i).data = c :: l ∧ c ≠ 'N' := by
  unfold intToString
  split_ifs with h
  · exact ⟨'-', (natToString i.natAbs).data,
      by rw [String.data_append]; rfl, by decide⟩
  · exact natToString_head i.natAbs

theorem toFixed1_head (q : ℚ) :
    ∃ c l, (toFixed1 q).data = c :: l ∧ c ≠ 'N' := by
  unfold toFixed1
  dsimp only
  split_ifs with h
  · have h1 := head_of_append "-" (natToString ((round (10 * q)).natAbs / 10))
      '-' [] rfl
    have h2 := head_of_append _ "." '-' _ h1
    have h3 := head_of_append _ (natToString ((round (10 * q)).natAbs % 10))
      '-' _ h2
    exact ⟨'-', _, h3, by decide⟩
  · obtain ⟨c, l, hd, hc⟩ := natToString_head ((round (10 * q)).natAbs / 10)
    have h0 : ("" ++ natToString ((round (10 * q)).natAbs / 10)).data = c :: l := by
      rw [String.data_append, hd]; rfl
    have h2 := head_of_append _ "." c _ h0
    have h3 := head_of_append _ (natToString ((round (10 * q)).natAbs % 10))
      c _ h2
    exact ⟨c, _, h3, hc⟩

theorem intToString_degC_ne_NA (i : Int) : intToString i ++ "°C" ≠ "N/A" := by
  obtain ⟨c, l, hd, hc⟩ := intToString_head i
  exact ne_NA_of_head _ c _ (head_of_append _ _ _ _ hd) hc

theorem toFixed1_m_ne_NA (q : ℚ) : toFixed1 q ++ " m" ≠ "N/A" := by
  obtain ⟨c, l, hd, hc⟩ := toFixed1_head q
  exact ne_NA_of_head _ c _ (head_of_append _ _ _ _ hd) hc

/-- Key-miss behaviour of association-list lookup. -/
theorem lookup_eq_none_of_keys : ∀ (l : List (Int × String)) (a : Int),
    (∀ p ∈ l, p.1 ≠ a) → l.lookup a = none := by
  intro l a
  induction l with
  | nil => intro _; rfl
  | cons p t ih =>
    intro h
    have hp : (a == p.1) = false :=
      beq_eq_false_iff_ne.mpr (Ne.symm (h p (List.mem_cons_self p t)))
    rcases p with ⟨k, b⟩
    simp only [List.lookup, hp]
    exact ih fun q hq => h q (List.mem_cons_of_mem _ hq)

/-- The last in-range read of a non-empty list is its last element. -/
theorem getD_last_eq_getLast (l : List (Option ℚ)) (h : l ≠ []) :
    l.getLast? = some (l.getD (l.length - 1) none) := by
  have hlen : 0 < l.length := List.length_pos.mpr h
  rw [List.getLast?_eq_getElem?, List.getD_eq_getElem?_getD]
  cases hl : l[l.length - 1]? with
  | none =>
    rw [List.getElem?_eq_none_iff] at hl
    omega
  | some x => rfl

/-! Concrete fixtures used by witnesses and counterexamples. -/

/-- A page state with every panel hidden and nothing rendered. -/
def st0 : UIState :=
  { errorVisible := false, errorText := "", loadingVisible := false,
    currentSearchVisible := false, currentActive := false,
    historicalSearchVisible := false, historicalActive := false,
    marineSearchVisible := false, marineActive := false,
    marineEmptyVisible := false, activeCard := none,
    temperatureText := "", weatherConditionText := "", humidityText := "",
    locationText := "", histContent := .emptyMsg "", waveHeightText := "",
    seaTemperatureText := "" }

/-- `st0` with the current card's inline search open and marked active. -/
def stOpen : UIState :=
  { st0 with currentSearchVisible := true, currentActive := true,
             activeCard := some "current" }

/-- An environment where every fetch fails at the transport level. -/
def env0 : Env :=
  { geocodeResp := none, currentResp := none, histResp := none,
    marineResp := none, nowMs := 0 }

/-- A geocoding response with zero matches (HTTP success). -/
def envNotFound : Env :=
  { env0 with geocodeResp := some { ok := true, results := some [] } }

/-- The first geocoding match for the end-to-end Paris scenario. -/
def geoParis : GeoResult :=
  { latitude := 4885/100, longitude := 235/100, name := "Paris",
    country := "France", admin1 := none }

/-- The location `geocodeCity` builds from `geoParis`. -/
def locParis : Location :=
  { latitude := 4885/100, longitude := 235/100, name := "Paris",
    country := "France", admin1 := "" }

/-- The current conditions of the end-to-end Paris scenario. -/
def dataParis : CurrentData :=
  { temperature_2m := 184/10, relative_humidity_2m := 65, weather_code := 3 }

/-- An environment where geocoding and the current fetch both succeed. -/
def envParis : Env :=
  { env0 with
    geocodeResp := some { ok := true, results := some [geoParis] },
    currentResp := some { ok := true, current := dataParis } }

/-- A marine response whose hourly series is non-empty. -/
def marineRespCoastal : MarineResponse :=
  { ok := true,
    hourly := some { wave_height := [some (12/10), some (15/10)],
                     sea_surface_temperature := [some 20, some 21] } }

/-- A marine response whose `sea_surface_temperature` array is shorter
than its `wave_height` array. -/
def marineRespShort : MarineResponse :=
  { ok := true,
    hourly := some { wave_height := [some 1, some 2],
                     sea_surface_temperature := [some 18] } }

/-- A marine response with an empty hourly wave-height series. -/
def marineRespEmpty : MarineResponse :=
  { ok := true,
    hourly := some { wave_height := [], sea_surface_temperature := [] } }

/-- An eight-day daily series (one more than the rendering cap). -/
def dailyEight : DailyData :=
  { time := ["2026-10-04", "2026-10-05", "2026-10-06", "2026-10-07",
             "2026-10-08", "2026-10-09", "2026-10-10", "2026-10-11"],
    temperature_2m_max := [10, 11, 12, 13, 14, 15, 16, 17],
    temperature_2m_min := [1, 2, 3, 4, 5, 6, 7, 8],
    weather_code := [0, 1, 2, 3, 45, 61, 71, 95] }

/-! The specification claims. -/

/-- C1 (counterexample): the claim says a whitespace-only submission
shows a client-side validation error; in the code the `if (cityName)`
guard has no `else`, so the submission leaves the whole page state
unchanged and no error is shown: the error banner stays hidden. -/
theorem emptyInput_counterexample :
    jsTrim "   " = "" ∧
    handleCardSearchClick "current" "   " env0 stOpen = stOpen ∧
    (handleCardSearchClick "current" "   " env0 stOpen).errorVisible = false ∧
    handleCardSearchKeypress "current" "Enter" "   " env0 stOpen = stOpen := by
  refine ⟨by decide, by decide, by decide, by decide⟩

/-- C1 (amended): for every submit action (click or Enter keypress) on
any card whose input trims to the empty string, no network request is
issued — the result does not depend on the network environment at
all — and no validation error is shown: the page state is returned
unchanged, silently ignoring the submission. -/
theorem emptyInput_no_action :
    ∀ (cardType inputValue : String) (env envAlt : Env) (st : UIState),
      jsTrim inputValue = "" →
      handleCardSearchClick cardType inputValue env st = st ∧
      handleCardSearchClick cardType inputValue env st =
        handleCardSearchClick cardType inputValue envAlt st ∧
      ∀ key : String, handleCardSearchKeypress cardType key inputValue env st = st := by
  intro cardType inputValue env envAlt st h
  have h1 : ∀ e : Env, handleCardSearchClick cardType inputValue e st = st := by
    intro e
    simp [handleCardSearchClick, h]
  refine ⟨h1 env, by rw [h1 env, h1 envAlt], ?_⟩
  intro key
  by_cases hk : key = "Enter"
  · simp [handleCardSearchKeypress, hk, h1 env]
  · simp [handleCardSearchKeypress, hk]

/-- C1 (witness): a concrete whitespace-only submission on the marine
card is silently ignored. -/
theorem emptyInput_no_action_witness :
    jsTrim "  " = "" ∧ handleCardSearchClick "marine" "  " env0 st0 = st0 :=
  ⟨by decide, (emptyInput_no_action "marine" "  " env0 env0 st0 (by decide)).1⟩

/-- C2 (counterexample): the claim says the card's search box is hidden
after every search, success or failure; but on a geocoding not-found
the `throw` skips the hide statements inside the `try`, so after the
search fails the current card's search box is still open and still
marked active (while the not-found error is displayed). -/
theorem searchBoxStaysOpen_counterexample :
    (fetchWeatherForCard "current" envNotFound stOpen).currentSearchVisible = true ∧
    (fetchWeatherForCard "current" envNotFound stOpen).currentActive = true ∧
    (fetchWeatherForCard "current" envNotFound stOpen).errorVisible = true ∧
    (fetchWeatherForCard "current" envNotFound stOpen).errorText =
      "City not found. Please check the spelling and try again." := by
  refine ⟨by decide, by decide, by decide, by decide⟩

/-- C2 (amended): the card's inline search box is hidden and its active
marker removed exactly when the `try` block runs to completion — for
the current and historical cards, when geocoding and that card's fetch
succeed; for the marine card, whenever geocoding succeeds (marine data
absent or not); when any step throws (geocoding failure or not-found,
current/historical fetch failure), the search box and marker are left
exactly as they were. -/
theorem searchBoxClosed_iff_try_completes :
    ∀ (env : Env) (st : UIState),
      (∀ (cardType msg : String),
        fetchWeatherForCardTry cardType env (showLoading (hideError st)) = .error msg →
          (fetchWeatherForCard cardType env st).currentSearchVisible = st.currentSearchVisible ∧
          (fetchWeatherForCard cardType env st).currentActive = st.currentActive ∧
          (fetchWeatherForCard cardType env st).historicalSearchVisible = st.historicalSearchVisible ∧
          (fetchWeatherForCard cardType env st).historicalActive = st.historicalActive ∧
          (fetchWeatherForCard cardType env st).marineSearchVisible = st.marineSearchVisible ∧
          (fetchWeatherForCard cardType env st).marineActive = st.marineActive) ∧
      ∀ c : Location, geocodeCity env.geocodeResp = .ok (some c) →
        ((fetchWeatherForCard "marine" env st).marineSearchVisible = false ∧
         (fetchWeatherForCard "marine" env st).marineActive = false) ∧
        (∀ d : CurrentData, fetchCurrentWeather env.currentResp = .ok d →
          (fetchWeatherForCard "current" env st).currentSearchVisible = false ∧
          (fetchWeatherForCard "current" env st).currentActive = false) ∧
        (∀ d : Option DailyData, (fetchHistoricalWeather env.nowMs env.histResp).2 = .ok d →
          (fetchWeatherForCard "historical" env st).historicalSearchVisible = false ∧
          (fetchWeatherForCard "historical" env st).historicalActive = false) := by
  intro env st
  constructor
  · intro cardType msg h
    unfold fetchWeatherForCard
    dsimp only
    rw [h]
    exact ⟨rfl, rfl, rfl, rfl, rfl, rfl⟩
  · intro c hgeo
    refine ⟨?_, ?_, ?_⟩
    · unfold fetchWeatherForCard fetchWeatherForCardTry
      dsimp only
      rw [hgeo]
      simp only [if_neg (by decide : ¬("marine" = "current")),
        if_neg (by decide : ¬("marine" = "historical")),
        if_pos (rfl : "marine" = "marine")]
      cases hm : fetchMarineWeather env.marineResp with
      | none => exact ⟨rfl, rfl⟩
      | some d =>
        by_cases hw : d.waveHeight.isSome
        · simp only [if_pos hw]
          exact ⟨rfl, rfl⟩
        · simp only [if_neg hw]
          exact ⟨rfl, rfl⟩
    · intro d hd
      unfold fetchWeatherForCard fetchWeatherForCardTry
      dsimp only
      rw [hgeo]
      simp only [if_pos (rfl : "current" = "current")]
      rw [hd]
      exact ⟨rfl, rfl⟩
    · intro d hd
      unfold fetchWeatherForCard fetchWeatherForCardTry
      dsimp only
      rw [hgeo]
      simp only [if_neg (by decide : ¬("historical" = "current")),
        if_pos (rfl : "historical" = "historical")]
      rw [hd]
      exact ⟨rfl, rfl⟩

/-- C2 (witness): in a concrete successful current-card search the
inline search box does get hidden and deactivated. -/
theorem searchBoxClosed_witness :
    geocodeCity envParis.geocodeResp = .ok (some locParis) ∧
    fetchCurrentWeather envParis.currentResp = .ok dataParis ∧
    (fetchWeatherForCard "current" envParis stOpen).currentSearchVisible = false ∧
    (fetchWeatherForCard "current" envParis stOpen).currentActive = false := by
  refine ⟨rfl, rfl, ?_⟩
  exact ((searchBoxClosed_iff_try_completes envParis stOpen).2 locParis
    rfl).2.1 dataParis rfl

/-- C3: `fetchMarineWeather` is best-effort and total — a transport
failure, a non-2xx status, a missing hourly block, or an empty hourly
wave-height series all resolve to `null`; when the series is non-empty
the last element of the hourly arrays is returned as the current marine
conditions; and with an empty series the whole per-card search behaves
exactly as it does on a marine-fetch failure. -/
theorem fetchMarineWeather_bestEffort :
    fetchMarineWeather none = none ∧
    (∀ r : MarineResponse, r.ok = false → fetchMarineWeather (some r) = none) ∧
    (∀ r : MarineResponse, r.hourly = none → fetchMarineWeather (some r) = none) ∧
    (∀ (r : MarineResponse) (h : MarineHourly), r.hourly = some h →
      h.wave_height = [] → fetchMarineWeather (some r) = none) ∧
    (∀ (r : MarineResponse) (h : MarineHourly), r.ok = true → r.hourly = some h →
      h.wave_height ≠ [] →
      ∃ md, fetchMarineWeather (some r) = some md ∧
        h.wave_height.getLast? = some md.waveHeight ∧
        (h.sea_surface_temperature.length = h.wave_height.length →
          ∃ e, h.sea_surface_temperature.getLast? = some e ∧
            md.seaTemperature = jnumOfElem e)) ∧
    (∀ (r : MarineResponse) (h : MarineHourly) (env : Env) (st : UIState),
      r.hourly = some h → h.wave_height = [] →
      fetchWeatherForCard "marine" { env with marineResp := some r } st =
        fetchWeatherForCard "marine" { env with marineResp := none } st) := by
  refine ⟨rfl, ?_, ?_, ?_, ?_, ?_⟩
  · intro r hr
    simp [fetchMarineWeather, hr]
  · intro r hr
    cases hok : r.ok <;> simp [fetchMarineWeather, hok, hr]
  · intro r h hh hw
    cases hok : r.ok <;> simp [fetchMarineWeather, hok, hh, hw]
  · intro r h hok hh hne
    have hlen : 0 < h.wave_height.length := List.length_pos.mpr hne
    refine ⟨{ waveHeight := h.wave_height.getD (h.wave_height.length - 1) none,
              seaTemperature := jsGet h.sea_surface_temperature (h.wave_height.length - 1) },
      ?_, ?_, ?_⟩
    · simp [fetchMarineWeather, hok, hh, hlen]
    · exact getD_last_eq_getLast _ hne
    · intro hl
      cases hg : h.sea_surface_temperature.get? (h.wave_height.length - 1) with
      | none =>
        rw [List.get?_eq_none] at hg
        omega
      | some e =>
        refine ⟨e, ?_, ?_⟩
        · rw [List.getLast?_eq_getElem?, ← List.get?_eq_getElem?, hl]
          exact hg
        · cases e <;> simp only [jsGet, hg, jnumOfElem]
  · intro r h env st hh hw
    have hm : fetchMarineWeather (some r) = none := by
      cases hok : r.ok <;> simp [fetchMarineWeather, hok, hh, hw]
    unfold fetchWeatherForCard fetchWeatherForCardTry
    dsimp only
    rw [hm]
    rfl

/-- C3 (witness): on a concrete non-empty hourly series the fetch
resolves to the series' last sample. -/
theorem fetchMarineWeather_bestEffort_witness :
    marineRespCoastal.ok = true ∧
    (∃ md, fetchMarineWeather (some marineRespCoastal) = some md ∧
      (some (12/10 : ℚ) :: [some (15/10 : ℚ)] : List (Option ℚ)).getLast? = some md.waveHeight ∧
      True) := by
  constructor
  · rfl
  · obtain ⟨md, h1, h2, -⟩ := fetchMarineWeather_bestEffort.2.2.2.2.1 marineRespCoastal
      { wave_height := [some (12/10), some (15/10)],
        sea_surface_temperature := [some 20, some 21] } rfl rfl (by decide)
    exact ⟨md, h1, h2, trivial⟩

/-- C4: `getWeatherCondition` maps each of the 28 codes of its fixed
table to the exact documented label, and every other integer to the
literal string `Unknown`; as a total Lean function it never throws. -/
theorem getWeatherCondition_total :
    (getWeatherCondition 0 = "Clear sky" ∧ getWeatherCondition 1 = "Mainly clear" ∧
     getWeatherCondition 2 = "Partly cloudy" ∧ getWeatherCondition 3 = "Overcast" ∧
     getWeatherCondition 45 = "Foggy" ∧ getWeatherCondition 48 = "Depositing rime fog" ∧
     getWeatherCondition 51 = "Light drizzle" ∧ getWeatherCondition 53 = "Moderate drizzle" ∧
     getWeatherCondition 55 = "Dense drizzle" ∧ getWeatherCondition 56 = "Light freezing drizzle" ∧
     getWeatherCondition 57 = "Dense freezing drizzle" ∧ getWeatherCondition 61 = "Slight rain" ∧
     getWeatherCondition 63 = "Moderate rain" ∧ getWeatherCondition 65 = "Heavy rain" ∧
     getWeatherCondition 66 = "Light freezing rain" ∧ getWeatherCondition 67 = "Heavy freezing rain" ∧
     getWeatherCondition 71 = "Slight snow fall" ∧ getWeatherCondition 73 = "Moderate snow fall" ∧
     getWeatherCondition 75 = "Heavy snow fall" ∧ getWeatherCondition 77 = "Snow grains" ∧
     getWeatherCondition 80 = "Slight rain showers" ∧ getWeatherCondition 81 = "Moderate rain showers" ∧
     getWeatherCondition 82 = "Violent rain showers" ∧ getWeatherCondition 85 = "Slight snow showers" ∧
     getWeatherCondition 86 = "Heavy snow showers" ∧ getWeatherCondition 95 = "Thunderstorm" ∧
     getWeatherCondition 96 = "Thunderstorm with slight hail" ∧
     getWeatherCondition 99 = "Thunderstorm with heavy hail") ∧
    ∀ code : Int, code ∉ ([0, 1, 2, 3, 45, 48, 51, 53, 55, 56, 57, 61, 63, 65, 66,
      67, 71, 73, 75, 77, 80, 81, 82, 85, 86, 95, 96, 99] : List Int) →
      getWeatherCondition code = "Unknown" := by
  constructor
  · decide
  · intro code hc
    have hkeys : ∀ p ∈ weatherCodes, p.1 ∈ ([0, 1, 2, 3, 45, 48, 51, 53, 55, 56,
        57, 61, 63, 65, 66, 67, 71, 73, 75, 77, 80, 81, 82, 85, 86, 95, 96,
        99] : List Int) := by decide
    have hnone : weatherCodes.lookup code = none :=
      lookup_eq_none_of_keys _ _ fun p hp he => hc (he ▸ hkeys p hp)
    simp [getWeatherCondition, hnone]

/-- C4 (witness): the out-of-table code 42 renders as `Unknown`. -/
theorem getWeatherCondition_total_witness :
    (42 : Int) ∉ ([0, 1, 2, 3, 45, 48, 51, 53, 55, 56, 57, 61, 63, 65, 66,
      67, 71, 73, 75, 77, 80, 81, 82, 85, 86, 95, 96, 99] : List Int) ∧
    getWeatherCondition 42 = "Unknown" :=
  ⟨by decide, getWeatherCondition_total.2 42 (by decide)⟩

/-- C5: `displayCurrentWeather` rounds the temperature to the nearest
integer, renders the humidity as an integer percentage with a percent
suffix, translates the weather code through the condition table, and
formats the location with the region exactly when one is known; on the
Paris example inputs it renders 18, Overcast, 65 percent and
`Paris, France`. -/
theorem displayCurrentWeather_rendering :
    (∀ (data : CurrentData) (location : Location) (st : UIState),
      (displayCurrentWeather data location st).temperatureText =
        intToString (round data.temperature_2m) ∧
      (displayCurrentWeather data location st).humidityText =
        intToString data.relative_humidity_2m ++ "%" ∧
      (displayCurrentWeather data location st).weatherConditionText =
        getWeatherCondition data.weather_code ∧
      (displayCurrentWeather data location st).locationText =
        (if location.admin1 ≠ "" then
          location.name ++ ", " ++ location.admin1 ++ ", " ++ location.country
        else location.name ++ ", " ++ location.country)) ∧
    ∀ st : UIState,
      (displayCurrentWeather dataParis locParis st).temperatureText = "18" ∧
      (displayCurrentWeather dataParis locParis st).weatherConditionText = "Overcast" ∧
      (displayCurrentWeather dataParis locParis st).humidityText = "65%" ∧
      (displayCurrentWeather dataParis locParis st).locationText = "Paris, France" := by
  constructor
  · intro data location st
    exact ⟨rfl, rfl, rfl, rfl⟩
  · intro st
    have hr : (round ((184 : ℚ)/10) : ℤ) = 18 := by norm_num [round_eq]
    refine ⟨?_, rfl, rfl, rfl⟩
    show intToString (round dataParis.temperature_2m) = "18"
    simp only [dataParis]
    rw [hr]
    decide

/-- C6: every invocation of `fetchHistoricalWeather` requests the window
whose `end_date` is the calendar date of the call-time clock and whose
`start_date` is exactly seven days earlier, both as ISO `YYYY-MM-DD`
strings computed fresh from the clock argument; evaluated concretely,
day 20737 renders `2026-10-11` and its window start `2026-10-04`. -/
theorem fetchHistoricalWeather_window :
    ∀ (nowMs : Int) (resp : Option HistResponse),
      (fetchHistoricalWeather nowMs resp).1.end_date = isoDateString (utcDay nowMs) ∧
      (fetchHistoricalWeather nowMs resp).1.start_date =
        isoDateString (utcDay nowMs - 7) ∧
      isoDateString 20737 = "2026-10-11" ∧ isoDateString (20737 - 7) = "2026-10-04" := by
  intro nowMs resp
  refine ⟨rfl, ?_, by decide, by decide⟩
  show isoDateString (utcDay (nowMs - 7 * msPerDay)) = isoDateString (utcDay nowMs - 7)
  have h : utcDay (nowMs - 7 * msPerDay) = utcDay nowMs - 7 := by
    unfold utcDay msPerDay
    omega
  rw [h]

/-- C7: `displayHistoricalWeather` is idempotent (the previous panel
content is discarded, so re-rendering the same series changes nothing);
an absent or empty series renders the explicit no-data empty state; and
a non-empty series renders `min 7 length` rows — never more than 7 —
where row `i` is exactly the short date label, rounded max temperature
and translated condition of day `i`, in input order. -/
theorem displayHistoricalWeather_render :
    (∀ (data : Option DailyData) (p : HistContent),
      displayHistoricalWeather data (displayHistoricalWeather data p) =
        displayHistoricalWeather data p) ∧
    (∀ p : HistContent,
      displayHistoricalWeather none p = .emptyMsg "No historical data available") ∧
    (∀ (d : DailyData) (p : HistContent), d.time.length = 0 →
      displayHistoricalWeather (some d) p = .emptyMsg "No historical data available") ∧
    (∀ (d : DailyData) (p : HistContent), d.time.length ≠ 0 →
      ∃ rows, displayHistoricalWeather (some d) p = .days rows ∧
        rows.length = min 7 d.time.length ∧
        rows.length ≤ 7 ∧
        ∀ (i : Nat) (hi : i < rows.length), rows.get ⟨i, hi⟩ = historicalRow d i) := by
  refine ⟨fun data p => rfl, fun p => rfl, ?_, ?_⟩
  · intro d p h
    simp [displayHistoricalWeather, h]
  · intro d p h
    simp only [displayHistoricalWeather, if_neg h]
    refine ⟨_, rfl, ?_, ?_, ?_⟩
    · simp
    · simp
    · intro i hi
      simp [List.get_eq_getElem, List.getElem_map, List.getElem_range]

/-- C7 (witness): an eight-day series renders exactly seven rows, in
input order. -/
theorem displayHistoricalWeather_render_witness :
    dailyEight.time.length ≠ 0 ∧
    ∃ rows, displayHistoricalWeather (some dailyEight) (.emptyMsg "") = .days rows ∧
      rows.length = min 7 dailyEight.time.length ∧ rows.length ≤ 7 ∧
      ∀ (i : Nat) (hi : i < rows.length), rows.get ⟨i, hi⟩ = historicalRow dailyEight i :=
  ⟨by decide, displayHistoricalWeather_render.2.2.2 dailyEight (.emptyMsg "") (by decide)⟩

/-- C8: the loading indicator is hidden when `fetchWeatherForCard`
returns, on success, on every error path and on every modelled
exception, because `hideLoading` runs in the `finally` block; hence
every submission that entered the loading state ends with it
cleared. -/
theorem loadingAlwaysCleared :
    ∀ (cardType : String) (env : Env) (st : UIState),
      (fetchWeatherForCard cardType env st).loadingVisible = false ∧
      ∀ inputValue : String, jsTrim inputValue ≠ "" →
        (handleCardSearchClick cardType inputValue env st).loadingVisible = false ∧
        (handleCardSearchKeypress cardType "Enter" inputValue env st).loadingVisible = false := by
  intro cardType env st
  refine ⟨rfl, ?_⟩
  intro inputValue hv
  constructor
  · simp only [handleCardSearchClick, if_pos hv]
    rfl
  · simp only [handleCardSearchKeypress, if_pos rfl, handleCardSearchClick, if_pos hv]
    rfl

/-- C8 (witness): a concrete submission against an all-failing network
still ends with the loading indicator hidden. -/
theorem loadingAlwaysCleared_witness :
    jsTrim "Paris" ≠ "" ∧
    (handleCardSearchClick "current" "Paris" env0 stOpen).loadingVisible = false ∧
    (handleCardSearchKeypress "current" "Enter" "Paris" env0 stOpen).loadingVisible = false :=
  ⟨by decide, (loadingAlwaysCleared "current" env0 stOpen).2 "Paris" (by decide)⟩

/-- C9: `toggleCardSearch` first hides all three inline search boxes and
strips all three active markers, then activates exactly the requested
card; so after any call at most one card is active and at most one
search box is visible. -/
theorem toggleCardSearch_exclusive :
    ∀ st : UIState,
      ((toggleCardSearch "current" st).currentSearchVisible = true ∧
       (toggleCardSearch "current" st).currentActive = true ∧
       (toggleCardSearch "current" st).historicalSearchVisible = false ∧
       (toggleCardSearch "current" st).historicalActive = false ∧
       (toggleCardSearch "current" st).marineSearchVisible = false ∧
       (toggleCardSearch "current" st).marineActive = false ∧
       (toggleCardSearch "current" st).activeCard = some "current") ∧
      ((toggleCardSearch "historical" st).historicalSearchVisible = true ∧
       (toggleCardSearch "historical" st).historicalActive = true ∧
       (toggleCardSearch "historical" st).currentSearchVisible = false ∧
       (toggleCardSearch "historical" st).currentActive = false ∧
       (toggleCardSearch "historical" st).marineSearchVisible = false ∧
       (toggleCardSearch "historical" st).marineActive = false ∧
       (toggleCardSearch "historical" st).activeCard = some "historical") ∧
      ((toggleCardSearch "marine" st).marineSearchVisible = true ∧
       (toggleCardSearch "marine" st).marineActive = true ∧
       (toggleCardSearch "marine" st).currentSearchVisible = false ∧
       (toggleCardSearch "marine" st).currentActive = false ∧
       (toggleCardSearch "marine" st).historicalSearchVisible = false ∧
       (toggleCardSearch "marine" st).historicalActive = false ∧
       (toggleCardSearch "marine" st).activeCard = some "marine") ∧
      ∀ c : String,
        ((toggleCardSearch c st).currentActive &&
          (toggleCardSearch c st).historicalActive) = false ∧
        ((toggleCardSearch c st).currentActive &&
          (toggleCardSearch c st).marineActive) = false ∧
        ((toggleCardSearch c st).historicalActive &&
          (toggleCardSearch c st).marineActive) = false ∧
        ((toggleCardSearch c st).currentSearchVisible &&
          (toggleCardSearch c st).historicalSearchVisible) = false ∧
        ((toggleCardSearch c st).currentSearchVisible &&
          (toggleCardSearch c st).marineSearchVisible) = false ∧
        ((toggleCardSearch c st).historicalSearchVisible &&
          (toggleCardSearch c st).marineSearchVisible) = false := by
  intro st
  refine ⟨⟨rfl, rfl, rfl, rfl, rfl, rfl, rfl⟩, ⟨rfl, rfl, rfl, rfl, rfl, rfl, rfl⟩,
    ⟨rfl, rfl, rfl, rfl, rfl, rfl, rfl⟩, ?_⟩
  intro c
  unfold toggleCardSearch
  split_ifs <;> simp

/-- C10: `displayMarineWeather` renders the `N/A` fallback for a field
precisely when that field's value is strictly `null`; a
`sea_surface_temperature` array shorter than `wave_height` makes
`fetchMarineWeather` read past its end, producing an `undefined`
sea temperature that passes the strict null check and is rendered as
`NaN` with the degree suffix instead of `N/A`. -/
theorem marineNA_iff_strictNull :
    (∀ (d : MarineData) (st : UIState),
      ((displayMarineWeather d st).seaTemperatureText = "N/A" ↔
        d.seaTemperature = .null) ∧
      ((displayMarineWeather d st).waveHeightText = "N/A" ↔ d.waveHeight = none)) ∧
    (∀ (r : MarineResponse) (h : MarineHourly), r.ok = true → r.hourly = some h →
      h.sea_surface_temperature.length < h.wave_height.length →
      ∃ md, fetchMarineWeather (some r) = some md ∧ md.seaTemperature = .undef ∧
        ∀ st : UIState, (displayMarineWeather md st).seaTemperatureText = "NaN°C") := by
  constructor
  · intro d st
    constructor
    · cases hs : d.seaTemperature with
      | num q => simp [displayMarineWeather, renderSeaTemp, hs,
          intToString_degC_ne_NA (round q)]
      | null => simp [displayMarineWeather, renderSeaTemp, hs]
      | undef => simp [displayMarineWeather, renderSeaTemp, hs]
    · cases hw : d.waveHeight with
      | some q => simp [displayMarineWeather, hw, toFixed1_m_ne_NA q]
      | none => simp [displayMarineWeather, hw]
  · intro r h hok hh hlt
    have hlen : 0 < h.wave_height.length := by omega
    have hundef : jsGet h.sea_surface_temperature (h.wave_height.length - 1) = .undef := by
      have hg : h.sea_surface_temperature.get? (h.wave_height.length - 1) = none := by
        rw [List.get?_eq_none]
        omega
      simp only [jsGet, hg]
    refine ⟨{ waveHeight := h.wave_height.getD (h.wave_height.length - 1) none,
              seaTemperature := jsGet h.sea_surface_temperature (h.wave_height.length - 1) },
      ?_, hundef, ?_⟩
    · simp [fetchMarineWeather, hok, hh, hlen]
    · intro st
      simp [displayMarineWeather, renderSeaTemp, hundef]

/-- C10 (witness): a concrete response whose temperature series is one
sample short renders the sea temperature as `NaN` with the degree
suffix. -/
theorem marineNA_iff_strictNull_witness :
    marineRespShort.ok = true ∧
    ∃ md, fetchMarineWeather (some marineRespShort) = some md ∧
      md.seaTemperature = .undef ∧
      ∀ st : UIState, (displayMarineWeather md st).seaTemperatureText = "NaN°C" :=
  ⟨rfl, marineNA_iff_strictNull.2 marineRespShort
    { wave_height := [some 1, some 2], sea_surface_temperature := [some 18] }
    rfl rfl (by decide)⟩

end WeatherApp
